import Mathlib

/-
Verification of the lichess-puzzler validator server routes.

The router (src/unnamed/part_000) is embedded shallowly: each Express
handler becomes a pure Lean function from the request data and the
external-store state to a response, the updated store state, and a trace
of the calls the handler made into the external adapters.  JavaScript
numbers produced by parseInt are modelled as Option Int, with none
standing for NaN.  Falsy string checks (`if (!username)`) are modelled
explicitly.
-/

namespace Validator

/-- A puzzle: integer identity plus opaque content (board position and
solution line are treated as an opaque payload, as in the data model). -/
structure Puzzle where
  id : Int
  payload : String
deriving DecidableEq, Repr

/-- A review record as built by the review route:
`\x7b by: username, at: new Date(), score: parseInt(...), comment: ...,
rating: parseInt(...) \x7d`.  `score` and `rating` are results of the
JavaScript parseInt, so none models NaN; `comment` is the raw query
parameter, none when absent (undefined). -/
structure Review where
  by_ : String
  at_ : Nat
  score : Option Int
  comment : Option String
  rating : Option Int
deriving DecidableEq, Repr

/-- The session object: a single authId string, cleared string meaning
unauthenticated. -/
structure Session where
  authId : String
deriving DecidableEq, Repr

/-- The state of the external mongo-backed stores: the puzzle collection,
the review log (puzzle id paired with the review), and the auth
collection mapping authId to username. -/
structure Store where
  puzzles : List Puzzle
  reviews : List (Int × Review)
  auth : List (String × String)
deriving DecidableEq, Repr

/-- Result of the JavaScript parseInt on a string: leading whitespace is
skipped, an optional sign is read, then the longest prefix of decimal
digits; none (NaN) when no digit follows. -/
def parseIntJS (s : String) : Option Int :=
  let cs := s.data.dropWhile (fun c => c = ' ' ∨ c = '\t' ∨ c = '\n' ∨ c = '\r')
  let signed : Bool × List Char :=
    match cs with
    | '-' :: t => (true, t)
    | '+' :: t => (false, t)
    | t => (false, t)
  let ds := signed.2.takeWhile Char.isDigit
  if ds.isEmpty then none
  else
    let n : Nat := ds.foldl (fun a c => a * 10 + (c.toNat - 48)) 0
    some (if signed.1 then -(n : Int) else (n : Int))

/-- parseInt applied to a query parameter that may be absent:
parseInt(undefined) is NaN, so an absent parameter yields none. -/
def optParseIntJS (q : Option String) : Option Int :=
  match q with
  | none => none
  | some s => parseIntJS s

/-- `req.session?.authId || ''`: the authId of an optional session,
defaulting to the empty string. -/
def sessionAuthId (session : Option Session) : String :=
  match session with
  | none => ""
  | some s => s.authId

/-- Modelled from the spec: the puzzle-store lookup `getById(id)` of the
external Puzzle Store Adapter, whose implementation is not part of the
router source.  Looks the puzzle collection up by integer id; a NaN
argument (none) matches no document. -/
def getById (st : Store) (arg : Option Int) : Option Puzzle :=
  match arg with
  | none => none
  | some i => st.puzzles.find? (fun p => p.id = i)

/-- Modelled from the spec: the Session/Auth Adapter operation
`resolveUsername(authId)`, whose implementation is not part of the router
source.  It fails softly (returns none) when authId is empty or unknown. -/
def resolveUsername (st : Store) (authId : String) : Option String :=
  if authId = "" then none
  else (st.auth.find? (fun kv => kv.1 = authId)).map Prod.snd

/-- Modelled from the spec: the Puzzle Store Adapter operation
`appendReview(puzzle, review)`, whose implementation is not part of the
router source.  Appends one review record for the given puzzle. -/
def appendReview (st : Store) (p : Puzzle) (r : Review) : Store :=
  { st with reviews := st.reviews ++ [(p.id, r)] }

/-- JavaScript truthiness of a possibly-absent string: none and the empty
string are falsy; a nonempty string passes through. -/
def truthyStr (u : Option String) : Option String :=
  match u with
  | none => none
  | some s => if s = "" then none else some s

/-- One call the router makes into an external adapter, recorded in
order. -/
inductive Event
  | getCall (arg : Option Int)
  | nextCall
  | usernameCall (authId : String)
  | appendCall (pid : Int) (r : Review)
deriving DecidableEq, Repr

/-- The content of an HTML page the router sends: either the login
prompt (a bare link to /auth, embedding no puzzle data), or the
interactive page embedding the boot payload `\x7b username, puzzle \x7d`. -/
inductive PageContent
  | loginPrompt
  | interactive (username : String) (puzzle : Puzzle)
deriving DecidableEq, Repr

/-- A response the router produces: a bare status (`res.status(c).end()`),
an HTML page (`res.send(htmlPage(...))`, status 200), the JSON body
`JSON.stringify(\x7b username, puzzle \x7d)` (status 200), a redirect, or a
status with a JSON string message (`res.status(c).json(m)`). -/
inductive Response
  | emptyStatus (code : Nat)
  | htmlPage (content : PageContent)
  | jsonBody (username : String) (puzzle : Puzzle)
  | redirect (target : String)
  | statusJson (code : Nat) (message : String)
deriving DecidableEq, Repr

/-- The HTTP status code of a response; `res.send` defaults to 200 and
`res.redirect` to 302. -/
def Response.statusCode : Response → Nat
  | .emptyStatus c => c
  | .htmlPage _ => 200
  | .jsonBody _ _ => 200
  | .redirect _ => 302
  | .statusJson c _ => c

/-- The shared rendering helper `renderPuzzle(session, res, puzzle)`:
404 when the puzzle is absent; otherwise resolve the username from the
session (falsy result meaning unauthenticated) and send either the login
prompt or the interactive page with the boot payload. -/
def renderPuzzle (st : Store) (session : Option Session) (puzzle : Option Puzzle) :
    Response × List Event :=
  match puzzle with
  | none => (.emptyStatus 404, [])
  | some p =>
    let aid := sessionAuthId session
    match truthyStr (resolveUsername st aid) with
    | none => (.htmlPage .loginPrompt, [.usernameCall aid])
    | some u => (.htmlPage (.interactive u p), [.usernameCall aid])

/-- The handler of `GET /`: fetch the next puzzle from the store, then
render it through renderPuzzle. -/
def handleIndex (nextFn : Store → Option Puzzle) (st : Store) (session : Option Session) :
    Response × List Event :=
  let p := nextFn st
  let rp := renderPuzzle st session p
  (rp.1, .nextCall :: rp.2)

/-- The handler of `GET /puzzle/:id`: look the puzzle up by
`parseInt(req.params.id)`, then render it through renderPuzzle. -/
def handlePuzzleId (st : Store) (session : Option Session) (idParam : String) :
    Response × List Event :=
  let arg := parseIntJS idParam
  let p := getById st arg
  let rp := renderPuzzle st session p
  (rp.1, .getCall arg :: rp.2)

/-- The query parameters of the review route, each possibly absent. -/
structure ReviewQuery where
  score : Option String
  comment : Option String
  rating : Option String
deriving DecidableEq, Repr

/-- The review record the handler of `POST /review/:id` builds before
calling the store append. -/
def mkReview (username : String) (now : Nat) (q : ReviewQuery) : Review :=
  { by_ := username
    at_ := now
    score := optParseIntJS q.score
    comment := q.comment
    rating := optParseIntJS q.rating }

/-- The handler of `POST /review/:id`: look the puzzle up by
`parseInt(req.params.id)` (404 when absent); resolve the username from
the session (403 when falsy); append the review built from the query
parameters; fetch the next puzzle (404 when absent); send the JSON body
`\x7b username, puzzle: next \x7d`.  Returns the response, the updated store
state, and the adapter-call trace. -/
def handleReview (nextFn : Store → Option Puzzle) (st : Store) (session : Option Session)
    (idParam : String) (q : ReviewQuery) (now : Nat) :
    Response × Store × List Event :=
  let arg := parseIntJS idParam
  match getById st arg with
  | none => (.emptyStatus 404, st, [.getCall arg])
  | some puzzle =>
    let aid := sessionAuthId session
    match truthyStr (resolveUsername st aid) with
    | none => (.emptyStatus 403, st, [.getCall arg, .usernameCall aid])
    | some username =>
      let r := mkReview username now q
      let st1 := appendReview st puzzle r
      match nextFn st1 with
      | none =>
          (.emptyStatus 404, st1,
           [.getCall arg, .usernameCall aid, .appendCall puzzle.id r, .nextCall])
      | some nxt =>
          (.jsonBody username nxt, st1,
           [.getCall arg, .usernameCall aid, .appendCall puzzle.id r, .nextCall])

/-- The handler of `GET /logout`: `req.session!.authId = ''` then redirect
to `/`. -/
def handleLogout (session : Session) : Session × Response :=
  ({ session with authId := "" }, .redirect "/")

/-- An OAuth access token as returned by the token exchange; the `token`
field is what the router persists. -/
structure AccessToken where
  token : String
deriving DecidableEq, Repr

/-- The external user identity returned by the user-info fetch. -/
structure UserInfo where
  username : String
deriving DecidableEq, Repr

/-- The handler of `GET /oauth-callback`: exchange the code for a token,
fetch the user info, save the credential pair obtaining a fresh authId,
set it on the session and redirect to `/`; any failure in the try block
falls to the catch, which logs server-side and answers
`res.status(500).json('Authentication failed')` leaving the session
untouched.  The three external calls are passed as their (possibly
failing) results. -/
def handleOauthCallback (session : Session)
    (getTokenRes : Except String AccessToken)
    (getUserInfoRes : AccessToken → Except String UserInfo)
    (saveRes : String → String → Except String String) :
    Session × Response :=
  match getTokenRes with
  | .error _ => (session, .statusJson 500 "Authentication failed")
  | .ok tok =>
    match getUserInfoRes tok with
    | .error _ => (session, .statusJson 500 "Authentication failed")
    | .ok user =>
      match saveRes tok.token user.username with
      | .error _ => (session, .statusJson 500 "Authentication failed")
      | .ok authId => ({ session with authId := authId }, .redirect "/")

/-! Concrete fixtures used by witnesses and counterexamples. -/

/-- A first sample puzzle. -/
def p1 : Puzzle := { id := 1, payload := "pos1" }

/-- A second sample puzzle. -/
def p2 : Puzzle := { id := 2, payload := "pos2" }

/-- A store holding two puzzles and one credential mapping "aid" to
"alice". -/
def stC : Store := { puzzles := [p1, p2], reviews := [], auth := [("aid", "alice")] }

/-- A store holding a single puzzle and the "alice" credential. -/
def st1 : Store := { puzzles := [p1], reviews := [], auth := [("aid", "alice")] }

/-- A store holding no puzzles at all. -/
def storeEmpty : Store := { puzzles := [], reviews := [], auth := [] }

/-- A next-puzzle policy returning the first stored puzzle; with at
least one puzzle present it never returns none, as the store contract
demands. -/
def nextHead : Store → Option Puzzle := fun st => st.puzzles.head?

/-- A next-puzzle policy returning the first puzzle with no review yet:
a natural reading of "next puzzle needing review". -/
def nextUnreviewed : Store → Option Puzzle :=
  fun st => st.puzzles.find? (fun p => !(st.reviews.any (fun ir => ir.1 = p.id)))

/-- A session authenticated as "alice" through authId "aid". -/
def sessA : Option Session := some { authId := "aid" }

/-- The session record with authId "aid", before logout. -/
def sessA0 : Session := { authId := "aid" }

/-- A well-formed review query: score 5, comment ok, rating 1500. -/
def qGood : ReviewQuery := { score := some "5", comment := some "ok", rating := some "1500" }

/-- A malformed review query: score and rating are non-numeric strings. -/
def qBad : ReviewQuery := { score := some "abc", comment := some "ok", rating := some "xyz" }

/-! Helper lemmas shared between claims. -/

/-- A string that survives the truthiness filter is nonempty. -/
theorem truthyStr_ne_empty {x : Option String} {u : String}
    (h : truthyStr x = some u) : u ≠ "" := by
  unfold truthyStr at h
  cases x with
  | none => exact absurd h (by simp)
  | some s =>
    by_cases hs : s = "" <;> simp [hs] at h
    subst h; exact hs

/-- The rendering helper never records an append call. -/
theorem renderPuzzle_no_append (st : Store) (session : Option Session)
    (pz : Option Puzzle) (pid : Int) (r : Review) :
    Event.appendCall pid r ∉ (renderPuzzle st session pz).2 := by
  unfold renderPuzzle
  cases pz with
  | none => simp
  | some p =>
    cases h : truthyStr (resolveUsername st (sessionAuthId session)) <;> simp [h]

/-- Claim C1: the review route performs exactly the sequence puzzle
lookup (404 and nothing else when missing), username resolution (403 and
nothing else when falsy), review append, next-puzzle fetch (404 when
absent), JSON response with the new boot payload; it stops at the first
failing step, so the store is unchanged and the adapter trace is exactly
the calls made so far, and a review is never appended for a missing
puzzle or an unauthenticated caller. -/
theorem review_route_sequence (nextFn : Store → Option Puzzle) (st : Store)
    (session : Option Session) (idParam : String) (q : ReviewQuery) (now : Nat) :
    (getById st (parseIntJS idParam) = none →
      handleReview nextFn st session idParam q now
        = (.emptyStatus 404, st, [.getCall (parseIntJS idParam)])) ∧
    (∀ p, getById st (parseIntJS idParam) = some p →
      truthyStr (resolveUsername st (sessionAuthId session)) = none →
      handleReview nextFn st session idParam q now
        = (.emptyStatus 403, st,
           [.getCall (parseIntJS idParam), .usernameCall (sessionAuthId session)])) ∧
    (∀ p u, getById st (parseIntJS idParam) = some p →
      truthyStr (resolveUsername st (sessionAuthId session)) = some u →
      (nextFn (appendReview st p (mkReview u now q)) = none →
        handleReview nextFn st session idParam q now
          = (.emptyStatus 404, appendReview st p (mkReview u now q),
             [.getCall (parseIntJS idParam), .usernameCall (sessionAuthId session),
              .appendCall p.id (mkReview u now q), .nextCall])) ∧
      (∀ nxt, nextFn (appendReview st p (mkReview u now q)) = some nxt →
        handleReview nextFn st session idParam q now
          = (.jsonBody u nxt, appendReview st p (mkReview u now q),
             [.getCall (parseIntJS idParam), .usernameCall (sessionAuthId session),
              .appendCall p.id (mkReview u now q), .nextCall]))) := by
  refine ⟨fun h0 => ?_, fun p hp hu => ?_, fun p u hp hu => ⟨fun hn => ?_, fun nxt hn => ?_⟩⟩
  · simp [handleReview, h0]
  · simp [handleReview, hp, hu]
  · simp [handleReview, hp, hu, hn]
  · simp [handleReview, hp, hu, hn]

/-- Witness for claim C1: on the empty store a review request answers
404 with the store untouched after the single lookup call. -/
theorem review_route_sequence_witness :
    handleReview nextHead storeEmpty none "5" qGood 0
      = (.emptyStatus 404, storeEmpty, [.getCall (parseIntJS "5")]) :=
  (review_route_sequence nextHead storeEmpty none "5" qGood 0).1 (by decide)

/-- Claim C2 (refuted by the code, confirming a code bug): an
authenticated review request whose score and rating are the non-numeric
strings "abc" and "xyz" is not rejected: the handler appends a review
whose score and rating are NaN (modelled none) and answers the JSON
body with status 200. -/
theorem review_malformed_accepted :
    (handleReview nextHead stC sessA "1" qBad 0).1 = .jsonBody "alice" p1 ∧
    ((handleReview nextHead stC sessA "1" qBad 0).1).statusCode = 200 ∧
    (handleReview nextHead stC sessA "1" qBad 0).2.1.reviews
      = [(1, { by_ := "alice", at_ := 0, score := none, comment := some "ok", rating := none })] := by
  decide

/-- Counterexample for claim C3: with a single-puzzle store, whose next
policy therefore returns that same puzzle, the JSON response hands back
exactly the puzzle that was just reviewed, so the response puzzle is
not always distinct from the reviewed one. -/
theorem review_next_equals_reviewed :
    getById st1 (parseIntJS "1") = some p1 ∧
    (handleReview nextHead st1 sessA "1" qGood 0).1 = .jsonBody "alice" p1 ∧
    (handleReview nextHead st1 sessA "1" qGood 0).2.1.reviews
      = [(p1.id, mkReview "alice" 0 qGood)] := by
  decide

/-- Claim C3 as amended: a successful review by authenticated user
alice on an existing puzzle appends exactly one review with by alice
and answers the JSON body holding the puzzle the store returns as next
after the append, which need not differ from the reviewed puzzle. -/
theorem review_alice_success (nextFn : Store → Option Puzzle) (st : Store)
    (session : Option Session) (idParam : String) (q : ReviewQuery) (now : Nat)
    (p nxt : Puzzle)
    (hp : getById st (parseIntJS idParam) = some p)
    (hu : truthyStr (resolveUsername st (sessionAuthId session)) = some "alice")
    (hn : nextFn (appendReview st p (mkReview "alice" now q)) = some nxt) :
    (handleReview nextFn st session idParam q now).2.1.reviews
      = st.reviews ++ [(p.id, mkReview "alice" now q)] ∧
    (mkReview "alice" now q).by_ = "alice" ∧
    (handleReview nextFn st session idParam q now).1 = .jsonBody "alice" nxt := by
  simp only [appendReview, mkReview] at hn
  simp [handleReview, hp, hu, hn, appendReview, mkReview]

/-- Witness for claim C3 as amended: the concrete single-puzzle run
appends the one alice review and answers the JSON body. -/
theorem review_alice_success_witness :
    (handleReview nextHead st1 sessA "1" qGood 0).2.1.reviews
      = st1.reviews ++ [(p1.id, mkReview "alice" 0 qGood)] ∧
    (mkReview "alice" 0 qGood).by_ = "alice" ∧
    (handleReview nextHead st1 sessA "1" qGood 0).1 = .jsonBody "alice" p1 :=
  review_alice_success nextHead st1 sessA "1" qGood 0 p1 p1
    (by decide) (by decide) (by decide)

/-- Claim C4: both puzzle-page routes funnel through the single
renderPuzzle decision, which is a three-way rule: no puzzle gives 404;
a puzzle with no authenticated username gives the login prompt page and
never the interactive page; otherwise the interactive page embedding
the username and the puzzle as the boot payload. -/
theorem puzzle_page_three_way (nextFn : Store → Option Puzzle) (st : Store)
    (session : Option Session) (idParam : String) :
    (handleIndex nextFn st session).1 = (renderPuzzle st session (nextFn st)).1 ∧
    (handlePuzzleId st session idParam).1
      = (renderPuzzle st session (getById st (parseIntJS idParam))).1 ∧
    (renderPuzzle st session none).1 = .emptyStatus 404 ∧
    (∀ p, truthyStr (resolveUsername st (sessionAuthId session)) = none →
      (renderPuzzle st session (some p)).1 = .htmlPage .loginPrompt ∧
      ∀ u p2, (renderPuzzle st session (some p)).1 ≠ .htmlPage (.interactive u p2)) ∧
    (∀ p u, truthyStr (resolveUsername st (sessionAuthId session)) = some u →
      (renderPuzzle st session (some p)).1 = .htmlPage (.interactive u p)) := by
  refine ⟨rfl, rfl, rfl, fun p hu => ?_, fun p u hu => ?_⟩
  · simp [renderPuzzle, hu]
  · simp [renderPuzzle, hu]

/-- Witness for claim C4: an unauthenticated request on an existing
puzzle renders the login prompt. -/
theorem puzzle_page_three_way_witness :
    (renderPuzzle stC none (some p1)).1 = .htmlPage .loginPrompt :=
  ((puzzle_page_three_way nextHead stC none "1").2.2.2.1 p1 (by decide)).1

/-- Counterexample for claim C5: an unauthenticated review request on a
puzzle id absent from the store answers 404, not the claimed 403,
because the puzzle lookup precedes the authentication check. -/
theorem unauth_review_404_not_403 :
    (handleReview nextHead storeEmpty none "5" qGood 0).1 = .emptyStatus 404 ∧
    (handleReview nextHead storeEmpty none "5" qGood 0).1 ≠ .emptyStatus 403 := by
  decide

/-- Claim C5 as amended: for an unauthenticated session the two GET
routes never render the interactive puzzle page, and they render the
login prompt whenever a puzzle is found; the review route answers 403
whenever the puzzle exists (404 otherwise, since the lookup precedes
the authentication check). -/
theorem unauthenticated_responses (nextFn : Store → Option Puzzle) (st : Store)
    (session : Option Session) (idParam : String) (q : ReviewQuery) (now : Nat)
    (hu : truthyStr (resolveUsername st (sessionAuthId session)) = none) :
    (∀ u p, (handleIndex nextFn st session).1 ≠ .htmlPage (.interactive u p)) ∧
    (∀ u p, (handlePuzzleId st session idParam).1 ≠ .htmlPage (.interactive u p)) ∧
    (∀ p, nextFn st = some p → (handleIndex nextFn st session).1 = .htmlPage .loginPrompt) ∧
    (∀ p, getById st (parseIntJS idParam) = some p →
      (handlePuzzleId st session idParam).1 = .htmlPage .loginPrompt) ∧
    (∀ p, getById st (parseIntJS idParam) = some p →
      (handleReview nextFn st session idParam q now).1 = .emptyStatus 403) := by
  refine ⟨fun u p => ?_, fun u p => ?_, fun p hp => ?_, fun p hp => ?_, fun p hp => ?_⟩
  · cases h : nextFn st with
    | none => simp [handleIndex, renderPuzzle, h]
    | some p2 => simp [handleIndex, renderPuzzle, h, hu]
  · cases h : getById st (parseIntJS idParam) with
    | none => simp [handlePuzzleId, renderPuzzle, h]
    | some p2 => simp [handlePuzzleId, renderPuzzle, h, hu]
  · simp [handleIndex, renderPuzzle, hp, hu]
  · simp [handlePuzzleId, renderPuzzle, hp, hu]
  · simp [handleReview, hp, hu]

/-- Witness for claim C5 as amended: with no session at all the index
route renders the login prompt. -/
theorem unauthenticated_responses_witness :
    (handleIndex nextHead stC none).1 = .htmlPage .loginPrompt :=
  (unauthenticated_responses nextHead stC none "1" qGood 0 (by decide)).2.2.1 p1 (by decide)

/-- Claim C6 (refuted by the code, confirming a code bug): a request
with the non-integer path parameter abc is not rejected before the
store lookup: parseInt yields NaN and the store get is called with that
NaN argument, on both the puzzle page route and the review route. -/
theorem get_called_with_nan :
    parseIntJS "abc" = none ∧
    Event.getCall none ∈ (handlePuzzleId stC none "abc").2 ∧
    Event.getCall none ∈ (handleReview nextHead stC sessA "abc" qGood 0).2.2 := by
  decide

/-- Claim C7: whichever of the token exchange, the user-info fetch or
the credential save fails, the oauth callback answers status 500 with
the fixed generic body Authentication failed, a constant independent of
the code, the token and the provider error detail, and the session is
returned unchanged, so no identity is created on failure. -/
theorem oauth_callback_failure (session : Session) (gt : Except String AccessToken)
    (gui : AccessToken → Except String UserInfo)
    (sv : String → String → Except String String) :
    (∀ e, gt = .error e →
      handleOauthCallback session gt gui sv
        = (session, .statusJson 500 "Authentication failed")) ∧
    (∀ t e, gt = .ok t → gui t = .error e →
      handleOauthCallback session gt gui sv
        = (session, .statusJson 500 "Authentication failed")) ∧
    (∀ t u e, gt = .ok t → gui t = .ok u → sv t.token u.username = .error e →
      handleOauthCallback session gt gui sv
        = (session, .statusJson 500 "Authentication failed")) := by
  refine ⟨fun e h => ?_, fun t e h1 h2 => ?_, fun t u e h1 h2 h3 => ?_⟩
  · simp [handleOauthCallback, h]
  · simp [handleOauthCallback, h1, h2]
  · simp [handleOauthCallback, h1, h2, h3]

/-- Witness for claim C7: a failing token exchange answers the generic
500 and leaves the session as it was. -/
theorem oauth_callback_failure_witness :
    handleOauthCallback sessA0 (Except.error "invalid code")
      (fun _ => Except.error "provider down") (fun _ _ => Except.error "db down")
      = (sessA0, .statusJson 500 "Authentication failed") :=
  (oauth_callback_failure sessA0 (Except.error "invalid code")
    (fun _ => Except.error "provider down") (fun _ _ => Except.error "db down")).1
    "invalid code" rfl

/-- Claim C8: every review the review route passes to the store append
carries a nonempty by field equal to the username resolved from the
session of the requester, and the two GET routes never append a review,
so no route ever creates a review with an empty by. -/
theorem review_by_invariant (nextFn : Store → Option Puzzle) (st : Store)
    (session : Option Session) (idParam : String) (q : ReviewQuery) (now : Nat) :
    (∀ pid r, Event.appendCall pid r ∈ (handleReview nextFn st session idParam q now).2.2 →
      r.by_ ≠ "" ∧ truthyStr (resolveUsername st (sessionAuthId session)) = some r.by_) ∧
    (∀ pid r, Event.appendCall pid r ∉ (handleIndex nextFn st session).2) ∧
    (∀ pid r, Event.appendCall pid r ∉ (handlePuzzleId st session idParam).2) := by
  refine ⟨fun pid r hmem => ?_, fun pid r hmem => ?_, fun pid r hmem => ?_⟩
  · cases hget : getById st (parseIntJS idParam) with
    | none => simp [handleReview, hget] at hmem
    | some p =>
      cases hu : truthyStr (resolveUsername st (sessionAuthId session)) with
      | none => simp [handleReview, hget, hu] at hmem
      | some u =>
        cases hn : nextFn (appendReview st p (mkReview u now q)) with
        | none =>
          simp [handleReview, hget, hu, hn] at hmem
          obtain ⟨hpid, hr⟩ := hmem
          subst hr
          exact ⟨by simpa [mkReview] using truthyStr_ne_empty hu, by simp [mkReview, hu]⟩
        | some nxt =>
          simp [handleReview, hget, hu, hn] at hmem
          obtain ⟨hpid, hr⟩ := hmem
          subst hr
          exact ⟨by simpa [mkReview] using truthyStr_ne_empty hu, by simp [mkReview, hu]⟩
  · simp [handleIndex] at hmem
    exact renderPuzzle_no_append st session (nextFn st) pid r hmem
  · simp [handlePuzzleId] at hmem
    exact renderPuzzle_no_append st session (getById st (parseIntJS idParam)) pid r hmem

/-- Witness for claim C8: the concrete alice review carries a nonempty
by field matching the resolved username. -/
theorem review_by_invariant_witness :
    (mkReview "alice" 0 qGood).by_ ≠ "" ∧
    truthyStr (resolveUsername stC (sessionAuthId sessA)) = some (mkReview "alice" 0 qGood).by_ :=
  (review_by_invariant nextHead stC sessA "1" qGood 0).1 1 (mkReview "alice" 0 qGood) (by decide)

/-- Counterexample for claim C9: with an empty puzzle store the index
request issued after logout answers 404, not the login prompt, because
the missing-puzzle check precedes the authentication check. -/
theorem index_after_logout_404 :
    (handleIndex nextHead storeEmpty (some (handleLogout sessA0).1)).1 = .emptyStatus 404 ∧
    (handleIndex nextHead storeEmpty (some (handleLogout sessA0).1)).1 ≠ .htmlPage .loginPrompt := by
  decide

/-- Claim C9 as amended: logout clears the session authId to the empty
string and redirects to the root; it is idempotent, a second logout
yielding the same session state and response with no error; and an
index request issued after logout renders the login prompt whenever the
store yields a next puzzle (404 when it yields none). -/
theorem logout_clears_session (s : Session) (nextFn : Store → Option Puzzle) (st : Store) :
    handleLogout s = ({ authId := "" }, .redirect "/") ∧
    handleLogout (handleLogout s).1 = handleLogout s ∧
    (∀ p, nextFn st = some p →
      (handleIndex nextFn st (some (handleLogout s).1)).1 = .htmlPage .loginPrompt) := by
  refine ⟨rfl, rfl, fun p hp => ?_⟩
  simp [handleIndex, renderPuzzle, hp, handleLogout, sessionAuthId, resolveUsername, truthyStr]

/-- Witness for claim C9 as amended: after logging the alice session
out, the index request on the two-puzzle store renders the login
prompt. -/
theorem logout_clears_session_witness :
    (handleIndex nextHead stC (some (handleLogout sessA0).1)).1 = .htmlPage .loginPrompt :=
  (logout_clears_session sessA0 nextHead stC).2.2 p1 (by decide)

/-- Claim C10: when the next-puzzle fetch after a successful append
yields nothing, the client receives 404 even though the review has
already been persisted: the resulting store is exactly the appended
one and the trace records the append call, so the 404 does not mean
the review was dropped. -/
theorem review_404_after_append (nextFn : Store → Option Puzzle) (st : Store)
    (session : Option Session) (idParam : String) (q : ReviewQuery) (now : Nat)
    (p : Puzzle) (u : String)
    (hp : getById st (parseIntJS idParam) = some p)
    (hu : truthyStr (resolveUsername st (sessionAuthId session)) = some u)
    (hn : nextFn (appendReview st p (mkReview u now q)) = none) :
    (handleReview nextFn st session idParam q now).1 = .emptyStatus 404 ∧
    (handleReview nextFn st session idParam q now).2.1
      = appendReview st p (mkReview u now q) ∧
    Event.appendCall p.id (mkReview u now q)
      ∈ (handleReview nextFn st session idParam q now).2.2 := by
  simp [handleReview, hp, hu, hn]

/-- Witness for claim C10: with a single puzzle and the next-unreviewed
policy, reviewing that puzzle exhausts the backlog, the response is 404
and the review is nevertheless persisted. -/
theorem review_404_after_append_witness :
    (handleReview nextUnreviewed st1 sessA "1" qGood 0).1 = .emptyStatus 404 ∧
    (handleReview nextUnreviewed st1 sessA "1" qGood 0).2.1
      = appendReview st1 p1 (mkReview "alice" 0 qGood) ∧
    Event.appendCall p1.id (mkReview "alice" 0 qGood)
      ∈ (handleReview nextUnreviewed st1 sessA "1" qGood 0).2.2 :=
  review_404_after_append nextUnreviewed st1 sessA "1" qGood 0 p1 "alice"
    (by decide) (by decide) (by decide)

end Validator
